import Mathlib

/-!
Shallow embedding of the stock-movement / alert / notification core of a
layered inventory-management web application.

The embedded code lives in:
  * `server/services/stockMovementService.ts`  (movement engine)
  * `server/repositories/stockMovementRepository.ts`
  * `server/repositories/productRepository.ts`
  * `server/services/stockAlertService.ts`     (alert evaluator)
  * `server/services/websocketService.ts`      (broadcast payload builders)
  * `server/services/notificationService.ts` and
    `server/repositories/notificationRepository.ts` (notification store)

Database tables (`products`, `stockMovements`, `notifications`) are modelled
as Lean lists; `int` columns as `ℤ`; a thrown JavaScript `Error` as the
`.error` side of an `Except`; the mutable database as explicit state passed
in and returned (returned even on error, since a JS throw does not roll back
committed writes).  Fields the verified claims never touch (timestamps,
prices, category references) are omitted from the records.
-/

/-- Movement kinds, from the `MovementType` union in
`stockMovementService.ts`.  The source's string literal `"return"` is the
constructor `«return»`. -/
inductive MovementType where
  | purchase
  | sale
  | adjustment
  | «return»
  | damage
  deriving Repr, DecidableEq

/-- A row of the `products` table: `id`, unique `sku`, `name`, on-hand
`quantity` (int column), `minStockLevel` (int column).  Other columns are
not read by the embedded services. -/
structure Product where
  id : ℤ
  sku : String
  name : String
  quantity : ℤ
  minStockLevel : ℤ
  deriving Repr, DecidableEq

/-- A row of the `stockMovements` table (`id` is the auto-increment key). -/
structure StockMovement where
  id : ℤ
  productId : ℤ
  movementType : MovementType
  quantity : ℤ
  reason : Option String
  deriving Repr, DecidableEq

/-- The column values supplied to `stockMovementRepository.create`
(`InsertStockMovement`: the row minus the auto-assigned `id`). -/
structure InsertStockMovement where
  productId : ℤ
  movementType : MovementType
  quantity : ℤ
  reason : Option String
  deriving Repr, DecidableEq

/-- The argument of `stockMovementService.recordMovement`
(`StockMovementCreateInput`). -/
structure StockMovementCreateInput where
  productId : ℤ
  movementType : MovementType
  quantity : ℤ
  reason : Option String
  deriving Repr, DecidableEq

/-- The database state visible to the movement engine: the `products` table,
the `stockMovements` table, and the auto-increment counter assigning the
next movement `id`. -/
structure DBState where
  products : List Product
  movements : List StockMovement
  nextMovementId : ℤ
  deriving Repr, DecidableEq

/-- Errors thrown by `recordMovement`.  The source throws `Error` objects
with message strings; the constructors record the data interpolated into
those messages.  The "Invalid movement type" throw of the source cannot
fire here because `MovementType` is a closed inductive. -/
inductive MovementError where
  | productNotFound (productId : ℤ)
  | invalidQuantity
  | insufficientStock (current requested : ℤ)
  | repoFailure (msg : String)
  deriving Repr, DecidableEq

/-- `productRepository.findById`: `SELECT ... WHERE id = ? LIMIT 1`. -/
def productRepository.findById (ps : List Product) (id : ℤ) : Option Product :=
  ps.find? (fun p => p.id == id)

/-- `stockMovementRepository.findById`: `SELECT ... WHERE id = ? LIMIT 1`
over the `stockMovements` table. -/
def stockMovementRepository.findById (ms : List StockMovement) (id : ℤ) :
    Option StockMovement :=
  ms.find? (fun m => m.id == id)

/-- `stockMovementRepository.create`: inserts the row (the auto-increment
key assigns `nextMovementId`), then re-reads it with
`this.findById(data.productId)` — the source passes the *product* id where
a movement id is expected — and throws `"Failed to create stock movement"`
when that lookup misses.  The insert is already committed when the lookup
runs, so the post-state keeps the row in either case. -/
def stockMovementRepository.create (s : DBState) (data : InsertStockMovement) :
    (Except String StockMovement) × DBState :=
  let row : StockMovement :=
    { id := s.nextMovementId
      productId := data.productId
      movementType := data.movementType
      quantity := data.quantity
      reason := data.reason }
  let s' : DBState :=
    { s with movements := s.movements ++ [row], nextMovementId := s.nextMovementId + 1 }
  match stockMovementRepository.findById s'.movements data.productId with
  | none => (.error "Failed to create stock movement", s')
  | some created => (.ok created, s')

/-- `productRepository.update` as the movement engine calls it, with
`data = { quantity }`: look up the product (throw `"not found"` when
missing; the SKU-conflict branch is vacuous since no SKU is supplied),
`UPDATE products SET quantity = ? WHERE id = ?`, then return the re-read
row. -/
def productRepository.updateQuantity (s : DBState) (id q : ℤ) :
    (Except String Product) × DBState :=
  match productRepository.findById s.products id with
  | none => (.error "Product not found", s)
  | some _ =>
    let ps := s.products.map (fun p => if p.id == id then { p with quantity := q } else p)
    let s' : DBState := { s with products := ps }
    match productRepository.findById ps id with
    | none => (.error "Failed to update product", s')
    | some updated => (.ok updated, s')

/-- The `switch (data.movementType)` of `recordMovement` computing the new
quantity from the old one. -/
def newQuantityFor (oldQ : ℤ) (t : MovementType) (q : ℤ) : ℤ :=
  match t with
  | .purchase | .«return» => oldQ + q
  | .sale | .damage => oldQ - q
  | .adjustment => q

/-- `stockMovementService.recordMovement`: validate that the product exists
and the quantity is positive, compute the new quantity, reject a negative
result, insert the ledger row (for `adjustment` the stored quantity is the
resulting absolute value), then update the product's quantity.  The second
component is the database state after the call, whether it returns or
throws. -/
def stockMovementService.recordMovement (s : DBState) (data : StockMovementCreateInput) :
    (Except MovementError StockMovement) × DBState :=
  match productRepository.findById s.products data.productId with
  | none => (.error (.productNotFound data.productId), s)
  | some product =>
    if data.quantity ≤ 0 then
      (.error .invalidQuantity, s)
    else
      let newQuantity := newQuantityFor product.quantity data.movementType data.quantity
      if newQuantity < 0 then
        (.error (.insufficientStock product.quantity data.quantity), s)
      else
        let insertData : InsertStockMovement :=
          { productId := data.productId
            movementType := data.movementType
            quantity := if data.movementType = .adjustment then newQuantity else data.quantity
            reason := data.reason.map String.trim }
        match stockMovementRepository.create s insertData with
        | (.error msg, s1) => (.error (.repoFailure msg), s1)
        | (.ok movement, s1) =>
          match productRepository.updateQuantity s1 data.productId newQuantity with
          | (.error msg, s2) => (.error (.repoFailure msg), s2)
          | (.ok _, s2) => (.ok movement, s2)

/-! ## Alert evaluator (`stockAlertService.ts`) and broadcast payloads
(`websocketService.ts`) -/

/-- The notification object a websocket broadcast emits to connected
clients (`type`, `title`, `message`, `productId` fields of the payload
built in `websocketService.ts`; the timestamp is omitted). -/
structure WsNotification where
  wtype : String
  title : String
  message : String
  productId : ℤ
  deriving Repr, DecidableEq

/-- `websocketService.broadcastCriticalStockAlert`: the payload emitted on
`"notification:stock_critical"`.  Both critical branches of the alert
evaluator call this same builder. -/
def websocketService.broadcastCriticalStockAlert (productId : ℤ) (productName : String) :
    WsNotification :=
  { wtype := "stock_critical"
    title := "CRITICAL: " ++ productName ++ " Out of Stock!"
    message := "Product \"" ++ productName ++ "\" is out of stock or critically low!"
    productId := productId }

/-- `websocketService.broadcastLowStockAlert`: the payload emitted on
`"notification:stock_low"`. -/
def websocketService.broadcastLowStockAlert (productId : ℤ) (productName : String)
    (currentQuantity minLevel : ℤ) : WsNotification :=
  { wtype := "stock_low"
    title := "Low Stock: " ++ productName
    message := "Product \"" ++ productName ++ "\" has " ++ toString currentQuantity
      ++ " units, below minimum level of " ++ toString minLevel
    productId := productId }

/-- Which branch of `checkAndAlertStockLevel`'s if-chain fires.  The two
critical branches are distinct return points in the source (distinguished
here even though they broadcast identical payloads). -/
inductive AlertOutcome where
  | criticalOutOfStock
  | criticalLow
  | warningLow
  | noAlert
  deriving Repr, DecidableEq

/-- The if-chain of `stockAlertService.checkAndAlertStockLevel` on a loaded
product: `quantity === 0` → critical (out of stock); `quantity <
minLevel * 0.2` → critical (below 20% of minimum); `quantity < minLevel` →
warning; otherwise nothing.  The JavaScript comparison `quantity <
minLevel * 0.2` is read with exact arithmetic; it is written here as the
equivalent integer inequality `5 * quantity < minLevel` so that the
function evaluates inside the kernel — `alertOutcome_threshold_exact`
below proves this form equal to the literal rational reading. -/
def alertOutcome (p : Product) : AlertOutcome :=
  if p.quantity = 0 then .criticalOutOfStock
  else if 5 * p.quantity < p.minStockLevel then .criticalLow
  else if p.quantity < p.minStockLevel then .warningLow
  else .noAlert

/-- The integer inequality used in `alertOutcome` is exactly the source's
`quantity < minLevel * 0.2` over the rationals. -/
theorem alertOutcome_threshold_exact (q m : ℤ) :
    5 * q < m ↔ (q : ℚ) < (m : ℚ) * 0.2 := by
  constructor
  · intro h
    have h5 : (5 : ℚ) * q < (m : ℚ) := by exact_mod_cast h
    nlinarith
  · intro h
    have h5 : (5 : ℚ) * q < (m : ℚ) := by nlinarith
    exact_mod_cast h5

/-- The body of `checkAndAlertStockLevel` before its `try/catch`: the
product lookup (which may itself throw — first argument), then the
broadcast dispatch (which may throw — second argument).  Returns the
broadcast payload that was emitted, `none` when no branch fired or the
product was missing. -/
def stockAlertService.checkAndAlertStockLevelRun
    (lookup : Except String (Option Product))
    (bcast : WsNotification → Except String Unit)
    (productId : ℤ) : Except String (Option WsNotification) :=
  match lookup with
  | .error e => .error e
  | .ok none => .ok none
  | .ok (some product) =>
    match alertOutcome product with
    | .criticalOutOfStock =>
      (bcast (websocketService.broadcastCriticalStockAlert productId product.name)).map
        (fun _ => some (websocketService.broadcastCriticalStockAlert productId product.name))
    | .criticalLow =>
      (bcast (websocketService.broadcastCriticalStockAlert productId product.name)).map
        (fun _ => some (websocketService.broadcastCriticalStockAlert productId product.name))
    | .warningLow =>
      (bcast (websocketService.broadcastLowStockAlert productId product.name
          product.quantity product.minStockLevel)).map
        (fun _ => some (websocketService.broadcastLowStockAlert productId product.name
          product.quantity product.minStockLevel))
    | .noAlert => .ok none

/-- `stockAlertService.checkAndAlertStockLevel`: the body wrapped in the
source's `try { ... } catch (error) { console.error(...) }` — any thrown
error is swallowed and no alert is observed. -/
def stockAlertService.checkAndAlertStockLevel
    (lookup : Except String (Option Product))
    (bcast : WsNotification → Except String Unit)
    (productId : ℤ) : Option WsNotification :=
  match stockAlertService.checkAndAlertStockLevelRun lookup bcast productId with
  | .ok r => r
  | .error _ => none

/-- `checkAndAlertStockLevel` with a healthy database and websocket layer:
the lookup reads the `products` table and the broadcast succeeds. -/
def stockAlertService.check (ps : List Product) (productId : ℤ) : Option WsNotification :=
  stockAlertService.checkAndAlertStockLevel
    (.ok (productRepository.findById ps productId)) (fun _ => .ok ()) productId

/-- `stockAlertService.recordMovementAndAlert`: calls
`stockMovementRepository.create` directly (no product-existence, positivity
or non-negativity validation, and no product update), then broadcasts and
re-checks the stock level — steps that do not write the database — inside a
`try/catch` that swallows every error.  The database state after the call
is therefore `create`'s post-state in every case. -/
def stockAlertService.recordMovementAndAlert (s : DBState) (productId : ℤ)
    (movementType : MovementType) (quantity : ℤ) (reason : Option String) : DBState :=
  (stockMovementRepository.create s
    { productId := productId
      movementType := movementType
      quantity := quantity
      reason := reason }).2

/-! ## Notification store (`notificationRepository.ts`,
`notificationService.ts`) -/

/-- A row of the `notifications` table.  The `read` column is the mysql
enum `["true", "false"]` (default `"false"`), kept here as the literal
string it stores. -/
structure Notification where
  id : ℤ
  userId : ℤ
  ntype : String
  title : String
  message : String
  notifProductId : Option ℤ
  supplierId : Option ℤ
  read : String
  deriving Repr, DecidableEq

/-- The column values supplied to `notificationRepository.create`
(`InsertNotification`: the row minus the auto-assigned `id`). -/
structure InsertNotification where
  userId : ℤ
  ntype : String
  title : String
  message : String
  notifProductId : Option ℤ
  supplierId : Option ℤ
  read : String
  deriving Repr, DecidableEq

/-- The insert performed by `notificationRepository.create`: append the row
with the auto-increment id.  (The repository then re-reads a row by
`userId`/`type`/`title` to return it; only the table state matters to the
verified claims.) -/
def notificationRepository.create (ns : List Notification) (nextId : ℤ)
    (data : InsertNotification) : List Notification :=
  ns ++ [{ id := nextId
           userId := data.userId
           ntype := data.ntype
           title := data.title
           message := data.message
           notifProductId := data.notifProductId
           supplierId := data.supplierId
           read := data.read }]

/-- `notificationRepository.markAsRead`:
`UPDATE notifications SET read = 'true' WHERE id = ?`. -/
def notificationRepository.markAsRead (ns : List Notification) (notificationId : ℤ) :
    List Notification :=
  ns.map (fun n => if n.id == notificationId then { n with read := "true" } else n)

/-- `notificationRepository.markAllAsRead`:
`UPDATE notifications SET read = 'true' WHERE userId = ? AND read = 'false'`. -/
def notificationRepository.markAllAsRead (ns : List Notification) (userId : ℤ) :
    List Notification :=
  ns.map (fun n =>
    if n.userId == userId && n.read == "false" then { n with read := "true" } else n)

/-- `notificationRepository.delete`:
`DELETE FROM notifications WHERE id = ?` (the not-found throw changes no
row either way). -/
def notificationRepository.delete (ns : List Notification) (notificationId : ℤ) :
    List Notification :=
  ns.filter (fun n => !(n.id == notificationId))

/-- `notificationService.createLowStockNotification`: inserts with
`read: "false"`. -/
def notificationService.createLowStockNotification (ns : List Notification) (nextId : ℤ)
    (userId productId : ℤ) (productName : String) (currentQuantity minLevel : ℤ) :
    List Notification :=
  notificationRepository.create ns nextId
    { userId := userId
      ntype := "stock_low"
      title := "Low Stock: " ++ productName
      message := "Product \"" ++ productName ++ "\" has " ++ toString currentQuantity
        ++ " units, below minimum level of " ++ toString minLevel
      notifProductId := some productId
      supplierId := none
      read := "false" }

/-- `notificationService.createCriticalStockNotification`: inserts with
`read: "false"`. -/
def notificationService.createCriticalStockNotification (ns : List Notification)
    (nextId : ℤ) (userId productId : ℤ) (productName : String) : List Notification :=
  notificationRepository.create ns nextId
    { userId := userId
      ntype := "stock_critical"
      title := "Critical Stock: " ++ productName
      message := "Product \"" ++ productName ++ "\" is out of stock or critically low!"
      notifProductId := some productId
      supplierId := none
      read := "false" }

/-- `notificationService.createSupplierAlertNotification`: inserts with
`read: "false"`. -/
def notificationService.createSupplierAlertNotification (ns : List Notification)
    (nextId : ℤ) (userId supplierId : ℤ) (supplierName message : String) :
    List Notification :=
  notificationRepository.create ns nextId
    { userId := userId
      ntype := "supplier_alert"
      title := "Supplier Alert: " ++ supplierName
      message := message
      notifProductId := none
      supplierId := some supplierId
      read := "false" }

/-- `notificationService.createSystemNotification`: inserts with
`read: "false"`. -/
def notificationService.createSystemNotification (ns : List Notification) (nextId : ℤ)
    (userId : ℤ) (title message : String) : List Notification :=
  notificationRepository.create ns nextId
    { userId := userId
      ntype := "system"
      title := title
      message := message
      notifProductId := none
      supplierId := none
      read := "false" }

/-! ## Basic lemmas about the repository operations -/

/-- `stockMovementRepository.create` never touches the `products` table. -/
theorem create_products_eq (s : DBState) (d : InsertStockMovement) :
    (stockMovementRepository.create s d).2.products = s.products := by
  unfold stockMovementRepository.create
  dsimp only
  split <;> rfl

/-- `stockMovementRepository.create` appends exactly its row to the ledger,
whether or not the re-read succeeds. -/
theorem create_movements_eq (s : DBState) (d : InsertStockMovement) :
    (stockMovementRepository.create s d).2.movements =
      s.movements ++ [{ id := s.nextMovementId
                        productId := d.productId
                        movementType := d.movementType
                        quantity := d.quantity
                        reason := d.reason }] := by
  unfold stockMovementRepository.create
  dsimp only
  split <;> rfl

/-- Updating the quantity of the product found under `id` keeps it the
first match under `id`, now carrying the new quantity. -/
theorem findById_map_update (ps : List Product) (id q : ℤ) (p : Product)
    (h : productRepository.findById ps id = some p) :
    productRepository.findById
      (ps.map (fun pr => if pr.id == id then { pr with quantity := q } else pr)) id
      = some { p with quantity := q } := by
  induction ps with
  | nil => simp [productRepository.findById] at h
  | cons hd tl ih =>
    unfold productRepository.findById at h ih ⊢
    by_cases hid : hd.id = id
    · rw [List.find?_cons_of_pos _ (by simp [hid])] at h
      simp only [List.map_cons, if_pos (by simp [hid] : (hd.id == id) = true)]
      rw [List.find?_cons_of_pos _ (by simp [hid])]
      cases h
      rfl
    · rw [List.find?_cons_of_neg _ (by simp [hid])] at h
      simp only [List.map_cons, if_neg (by simp [hid] : ¬(hd.id == id) = true)]
      rw [List.find?_cons_of_neg _ (by simp [hid])]
      exact ih h

/-- `productRepository.updateQuantity` on a product that exists: returns
the re-read updated row and writes only that product's quantity. -/
theorem updateQuantity_found (s : DBState) (id q : ℤ) (p : Product)
    (h : productRepository.findById s.products id = some p) :
    productRepository.updateQuantity s id q =
      (.ok { p with quantity := q },
       { s with products :=
          s.products.map (fun pr => if pr.id == id then { pr with quantity := q } else pr) }) := by
  unfold productRepository.updateQuantity
  rw [h]
  dsimp only
  rw [findById_map_update s.products id q p h]

/-! ## Claims about the movement engine -/

/-- C1: a successful `recordMovement` on an existing product with prior
quantity `Q` leaves the product's quantity at `Q + quantity` for
`purchase`/`return`, at `Q - quantity` for `sale`/`damage`, and at exactly
`quantity` for `adjustment`, regardless of `Q`. -/
theorem recordMovement_updates_quantity (s : DBState) (data : StockMovementCreateInput)
    (p : Product) (m : StockMovement) (s' : DBState)
    (hp : productRepository.findById s.products data.productId = some p)
    (hok : stockMovementService.recordMovement s data = (.ok m, s')) :
    ∃ p', productRepository.findById s'.products data.productId = some p' ∧
      ((data.movementType = .purchase ∨ data.movementType = .«return») →
        p'.quantity = p.quantity + data.quantity) ∧
      ((data.movementType = .sale ∨ data.movementType = .damage) →
        p'.quantity = p.quantity - data.quantity) ∧
      (data.movementType = .adjustment → p'.quantity = data.quantity) := by
  simp only [stockMovementService.recordMovement, hp] at hok
  split at hok
  · exact absurd hok (by simp)
  · split at hok
    · exact absurd hok (by simp)
    · split at hok
      next msg s1 heq =>
        exact absurd hok (by simp)
      next movement s1 heq =>
        have hs1 : s1.products = s.products := by
          have h2 := congrArg Prod.snd heq
          dsimp only at h2
          rw [← h2, create_products_eq]
        have hp1 : productRepository.findById s1.products data.productId = some p := by
          rw [hs1]; exact hp
        rw [updateQuantity_found s1 data.productId
          (newQuantityFor p.quantity data.movementType data.quantity) p hp1] at hok
        dsimp only at hok
        obtain ⟨hm, hs'⟩ := Prod.mk.injEq .. ▸ hok
        refine ⟨{ p with quantity := newQuantityFor p.quantity data.movementType data.quantity }, ?_, ?_, ?_, ?_⟩
        · rw [← hs']
          dsimp only
          exact findById_map_update s1.products data.productId _ p hp1
        · rintro (ht | ht) <;> simp [ht, newQuantityFor]
        · rintro (ht | ht) <;> simp [ht, newQuantityFor]
        · intro ht; simp [ht, newQuantityFor]

/-- A one-product sample database: product 1 ("Widget", quantity 10,
minimum stock level 5), empty ledger. -/
def sampleDB : DBState :=
  { products := [⟨1, "SKU-1", "Widget", 10, 5⟩], movements := [], nextMovementId := 1 }

/-- Witness for `recordMovement_updates_quantity`: a `purchase` of 5 on
product 1 of `sampleDB` (quantity 10) leaves it at 15. -/
theorem recordMovement_updates_quantity_witness :
    ∃ p', productRepository.findById [⟨1, "SKU-1", "Widget", 15, 5⟩] 1 = some p' ∧
      p'.quantity = 15 := by
  obtain ⟨p', hfind, hpr, _, _⟩ := recordMovement_updates_quantity sampleDB
    ⟨1, .purchase, 5, none⟩ ⟨1, "SKU-1", "Widget", 10, 5⟩ ⟨1, 1, .purchase, 5, none⟩
    ⟨[⟨1, "SKU-1", "Widget", 15, 5⟩], [⟨1, 1, .purchase, 5, none⟩], 2⟩ rfl rfl
  exact ⟨p', hfind, by rw [hpr (Or.inl rfl)]; rfl⟩

/-- C2: when the computed resulting quantity would be negative (after the
existence and positivity validations), `recordMovement` throws
`Insufficient stock` carrying the current and requested quantities and the
returned database state is exactly the input state: nothing is mutated and
no ledger row is created. -/
theorem recordMovement_insufficient_rejected (s : DBState) (data : StockMovementCreateInput)
    (p : Product)
    (hp : productRepository.findById s.products data.productId = some p)
    (hq : 0 < data.quantity)
    (hneg : newQuantityFor p.quantity data.movementType data.quantity < 0) :
    stockMovementService.recordMovement s data =
      (.error (.insufficientStock p.quantity data.quantity), s) := by
  simp only [stockMovementService.recordMovement, hp]
  rw [if_neg (by omega), if_pos hneg]

/-- Witness for `recordMovement_insufficient_rejected`: a `sale` of 20 on
product 1 of `sampleDB` (quantity 10) is rejected and the state is
untouched. -/
theorem recordMovement_insufficient_rejected_witness :
    stockMovementService.recordMovement sampleDB ⟨1, .sale, 20, none⟩ =
      (.error (.insufficientStock 10 20), sampleDB) :=
  recordMovement_insufficient_rejected sampleDB ⟨1, .sale, 20, none⟩
    ⟨1, "SKU-1", "Widget", 10, 5⟩ rfl (by decide) (by decide)

/-- The ledger row `recordMovement` hands to
`stockMovementRepository.create`, with its auto-assigned id: for
`adjustment` the stored quantity is the resulting absolute value, otherwise
the raw movement quantity; the reason is trimmed. -/
def engineInsertRow (s : DBState) (data : StockMovementCreateInput) (oldQ : ℤ) :
    StockMovement :=
  { id := s.nextMovementId
    productId := data.productId
    movementType := data.movementType
    quantity := if data.movementType = .adjustment
      then newQuantityFor oldQ data.movementType data.quantity else data.quantity
    reason := data.reason.map String.trim }

/-- Counterexample to the atomicity claim: on a database whose only
product has id 5 and an empty ledger, `recordMovement` inserts the ledger
row, then `create`'s read-back (`findById(data.productId)`) misses, the
call throws — and the state it leaves behind has the ledger row committed
while the product's quantity is unchanged. -/
theorem recordMovement_atomicity_cex :
    (stockMovementService.recordMovement ⟨[⟨5, "SKU-5", "Gadget", 10, 5⟩], [], 1⟩
        ⟨5, .purchase, 3, none⟩).1 =
      .error (.repoFailure "Failed to create stock movement") ∧
    (stockMovementService.recordMovement ⟨[⟨5, "SKU-5", "Gadget", 10, 5⟩], [], 1⟩
        ⟨5, .purchase, 3, none⟩).2.movements = [⟨1, 5, .purchase, 3, none⟩] ∧
    (stockMovementService.recordMovement ⟨[⟨5, "SKU-5", "Gadget", 10, 5⟩], [], 1⟩
        ⟨5, .purchase, 3, none⟩).2.products = [⟨5, "SKU-5", "Gadget", 10, 5⟩] :=
  ⟨rfl, rfl, rfl⟩

/-- C3 (amended): the quantity update is never committed without the
ledger row — every failing execution leaves the product table unchanged —
but the converse direction of the atomicity claim fails: when the persist
step throws after its insert (its read-back misses), the inserted ledger
row remains committed with the product quantity not updated. -/
theorem recordMovement_not_atomic (s : DBState) (data : StockMovementCreateInput)
    (p : Product)
    (hp : productRepository.findById s.products data.productId = some p)
    (hq : 0 < data.quantity)
    (hpos : 0 ≤ newQuantityFor p.quantity data.movementType data.quantity) :
    (∀ e s2, stockMovementService.recordMovement s data = (.error e, s2) →
      s2.products = s.products) ∧
    (stockMovementRepository.findById (s.movements ++ [engineInsertRow s data p.quantity])
        data.productId = none →
      stockMovementService.recordMovement s data =
        (.error (.repoFailure "Failed to create stock movement"),
         { s with movements := s.movements ++ [engineInsertRow s data p.quantity],
                  nextMovementId := s.nextMovementId + 1 })) := by
  constructor
  · intro e s2 herr
    simp only [stockMovementService.recordMovement, hp] at herr
    split at herr
    · exact absurd herr (by intro hx; cases hx; omega)
    · split at herr
      · cases herr; rfl
      · split at herr
        next msg s1 heq =>
          cases herr
          have h2 := congrArg Prod.snd heq
          dsimp only at h2
          rw [← h2, create_products_eq]
        next movement s1 heq =>
          have hs1 : s1.products = s.products := by
            have h2 := congrArg Prod.snd heq
            dsimp only at h2
            rw [← h2, create_products_eq]
          have hp1 : productRepository.findById s1.products data.productId = some p := by
            rw [hs1]; exact hp
          rw [updateQuantity_found s1 data.productId
            (newQuantityFor p.quantity data.movementType data.quantity) p hp1] at herr
          exact absurd herr (by simp)
  · intro hmiss
    simp only [stockMovementService.recordMovement, hp]
    rw [if_neg (by omega), if_neg (by omega)]
    have hcreate : stockMovementRepository.create s
        { productId := data.productId
          movementType := data.movementType
          quantity := if data.movementType = .adjustment
            then newQuantityFor p.quantity data.movementType data.quantity else data.quantity
          reason := data.reason.map String.trim } =
        (.error "Failed to create stock movement",
         { s with movements := s.movements ++ [engineInsertRow s data p.quantity],
                  nextMovementId := s.nextMovementId + 1 }) := by
      unfold stockMovementRepository.create
      dsimp only
      have hrow : stockMovementRepository.findById (s.movements ++ [{ id := s.nextMovementId, productId := data.productId, movementType := data.movementType, quantity := if data.movementType = .adjustment then newQuantityFor p.quantity data.movementType data.quantity else data.quantity, reason := data.reason.map String.trim }]) data.productId = none := hmiss
      rw [hrow]
      rfl
    rw [hcreate]

/-- Witness for `recordMovement_not_atomic` at the concrete database whose
only product has id 5: the failing call commits the ledger row and leaves
the quantity at 10. -/
theorem recordMovement_not_atomic_witness :
    stockMovementService.recordMovement ⟨[⟨5, "SKU-5", "Gadget", 10, 5⟩], [], 1⟩
        ⟨5, .purchase, 3, none⟩ =
      (.error (.repoFailure "Failed to create stock movement"),
       { products := [⟨5, "SKU-5", "Gadget", 10, 5⟩]
         movements := [] ++ [engineInsertRow ⟨[⟨5, "SKU-5", "Gadget", 10, 5⟩], [], 1⟩
           ⟨5, .purchase, 3, none⟩ 10]
         nextMovementId := 1 + 1 }) :=
  (recordMovement_not_atomic ⟨[⟨5, "SKU-5", "Gadget", 10, 5⟩], [], 1⟩
    ⟨5, .purchase, 3, none⟩ ⟨5, "SKU-5", "Gadget", 10, 5⟩ rfl (by decide) (by decide)).2
    (by decide)

/-- A database with two products and a two-row ledger whose movement ids
are 1 and 2 (both rows belong to product 1); the auto-increment counter is
at 3. -/
def ledgerDB : DBState :=
  { products := [⟨1, "SKU-1", "Widget", 10, 5⟩, ⟨2, "SKU-2", "Gadget", 10, 5⟩]
    movements := [⟨1, 1, .purchase, 5, none⟩, ⟨2, 1, .purchase, 7, none⟩]
    nextMovementId := 3 }

/-- C4 fails on the code: a successful `recordMovement` for product 2 on
`ledgerDB` persists the row `⟨3, 2, purchase, 4⟩`, but returns the
pre-existing ledger row whose *movement id* equals the product id — row
`⟨2, 1, purchase, 7⟩`, which belongs to product 1 and matches the created
row in neither productId nor quantity.  (`stockMovementRepository.create`
re-reads the created row with `findById(data.productId)`.) -/
theorem recordMovement_returns_wrong_row :
    (stockMovementService.recordMovement ledgerDB ⟨2, .purchase, 4, none⟩).1 =
      .ok ⟨2, 1, .purchase, 7, none⟩ ∧
    (stockMovementService.recordMovement ledgerDB ⟨2, .purchase, 4, none⟩).2.movements =
      ledgerDB.movements ++ [⟨3, 2, .purchase, 4, none⟩] ∧
    (⟨2, 1, .purchase, 7, none⟩ : StockMovement).productId ≠ 2 ∧
    (⟨2, 1, .purchase, 7, none⟩ : StockMovement).quantity ≠ 4 :=
  ⟨rfl, rfl, by decide, by decide⟩

/-! ## Claims about the alert evaluator -/

/-- C5: the evaluator classifies by first match in strict order — `Q = 0`
gives the out-of-stock critical branch even when `Q < minLevel * 0.2` also
holds; otherwise `Q < minLevel * 0.2` gives the critically-low branch;
otherwise `Q < minLevel` gives the warning branch; otherwise no alert.  A
product with `minLevel = 0` (and the data model's non-negative quantity)
alerts exactly when `Q = 0`. -/
theorem alert_classification_order (p : Product) :
    (p.quantity = 0 → alertOutcome p = .criticalOutOfStock) ∧
    (p.quantity ≠ 0 → (p.quantity : ℚ) < (p.minStockLevel : ℚ) * 0.2 →
      alertOutcome p = .criticalLow) ∧
    (p.quantity ≠ 0 → ¬((p.quantity : ℚ) < (p.minStockLevel : ℚ) * 0.2) →
      p.quantity < p.minStockLevel → alertOutcome p = .warningLow) ∧
    (p.quantity ≠ 0 → ¬((p.quantity : ℚ) < (p.minStockLevel : ℚ) * 0.2) →
      ¬(p.quantity < p.minStockLevel) → alertOutcome p = .noAlert) ∧
    (p.minStockLevel = 0 → 0 ≤ p.quantity →
      (alertOutcome p ≠ .noAlert ↔ p.quantity = 0)) := by
  refine ⟨?_, ?_, ?_, ?_, ?_⟩
  · intro h0
    unfold alertOutcome
    rw [if_pos h0]
  · intro h0 hlt
    unfold alertOutcome
    rw [if_neg h0, if_pos ((alertOutcome_threshold_exact _ _).mpr hlt)]
  · intro h0 hlt hw
    unfold alertOutcome
    rw [if_neg h0, if_neg (fun hc => hlt ((alertOutcome_threshold_exact _ _).mp hc)),
      if_pos hw]
  · intro h0 hlt hw
    unfold alertOutcome
    rw [if_neg h0, if_neg (fun hc => hlt ((alertOutcome_threshold_exact _ _).mp hc)),
      if_neg hw]
  · intro hm hq
    unfold alertOutcome
    by_cases h0 : p.quantity = 0
    · simp [if_pos h0, h0]
    · have h5 : ¬(5 * p.quantity < p.minStockLevel) := by omega
      have hw : ¬(p.quantity < p.minStockLevel) := by omega
      simp [if_neg h0, if_neg h5, if_neg hw, h0]

/-- Witness for `alert_classification_order`: a product at quantity 0 with
minimum level 10 is classified critical out-of-stock, even though `0 < 10
* 0.2` would also match the critically-low test. -/
theorem alert_classification_order_witness :
    alertOutcome ⟨1, "SKU-1", "Widget", 0, 10⟩ = .criticalOutOfStock ∧
    ((0 : ℚ) < (10 : ℚ) * 0.2) ∧
    alertOutcome ⟨1, "SKU-1", "Nail", 0, 0⟩ ≠ .noAlert ∧
    alertOutcome ⟨1, "SKU-1", "Nail", 3, 0⟩ = .noAlert :=
  ⟨(alert_classification_order ⟨1, "SKU-1", "Widget", 0, 10⟩).1 rfl,
   by norm_num,
   ((alert_classification_order ⟨1, "SKU-1", "Nail", 0, 0⟩).2.2.2.2 rfl (by decide)).mpr rfl,
   (alert_classification_order ⟨1, "SKU-1", "Nail", 3, 0⟩).2.2.2.1 (by decide)
     (by rw [← alertOutcome_threshold_exact]; decide) (by decide)⟩

/-- `alertOutcome` on a product literal, written out.  Definitional. -/
theorem alertOutcome_eval (i : ℤ) (sku nm : String) (q M : ℤ) :
    alertOutcome ⟨i, sku, nm, q, M⟩ =
      if q = 0 then .criticalOutOfStock
      else if 5 * q < M then .criticalLow
      else if q < M then .warningLow
      else .noAlert := rfl

/-- Counterexample to the boundary table as stated: for `minLevel = 1 > 0`
the quantity `minLevel - 1 = 0` is classified critical (out of stock), not
Warning — the out-of-stock branch fires first. -/
theorem alert_boundary_cex :
    (1 : ℤ) - 1 = 0 ∧
    alertOutcome ⟨1, "SKU-1", "Widget", 1 - 1, 1⟩ = .criticalOutOfStock ∧
    alertOutcome ⟨1, "SKU-1", "Widget", 1 - 1, 1⟩ ≠ .warningLow :=
  ⟨by decide, by decide, by decide⟩

/-- C6 (amended): for every `minLevel = M ≥ 1`, quantity 0 is critical
(out of stock); quantity `M - 1` is Warning provided `M ≥ 2` (at `M = 1`
it is quantity 0, hence critical out-of-stock); quantity
`floor(M * 0.2) - 1` is the critically-low critical branch whenever that
value is nonzero, and the out-of-stock critical branch when it is zero;
quantity `M` gives no alert. -/
theorem alert_boundaries_amended (i : ℤ) (sku nm : String) (M : ℤ) (hM : 1 ≤ M) :
    alertOutcome ⟨i, sku, nm, 0, M⟩ = .criticalOutOfStock ∧
    (2 ≤ M → alertOutcome ⟨i, sku, nm, M - 1, M⟩ = .warningLow) ∧
    (Int.floor ((M : ℚ) * 0.2) - 1 = 0 →
      alertOutcome ⟨i, sku, nm, Int.floor ((M : ℚ) * 0.2) - 1, M⟩ = .criticalOutOfStock) ∧
    (Int.floor ((M : ℚ) * 0.2) - 1 ≠ 0 →
      alertOutcome ⟨i, sku, nm, Int.floor ((M : ℚ) * 0.2) - 1, M⟩ = .criticalLow) ∧
    alertOutcome ⟨i, sku, nm, M, M⟩ = .noAlert := by
  have hf : ((Int.floor ((M : ℚ) * 0.2) : ℤ) : ℚ) ≤ (M : ℚ) * 0.2 := Int.floor_le _
  have hfl : 5 * Int.floor ((M : ℚ) * 0.2) ≤ M := by
    have h5 : (5 : ℚ) * ((Int.floor ((M : ℚ) * 0.2) : ℤ) : ℚ) ≤ (M : ℚ) := by linarith
    exact_mod_cast h5
  refine ⟨?_, ?_, ?_, ?_, ?_⟩
  · rw [alertOutcome_eval, if_pos rfl]
  · intro h2M
    rw [alertOutcome_eval, if_neg (by omega), if_neg (by omega), if_pos (by omega)]
  · intro h
    rw [alertOutcome_eval, if_pos h]
  · intro h
    rw [alertOutcome_eval, if_neg h, if_pos (by omega)]
  · rw [alertOutcome_eval, if_neg (by omega), if_neg (by omega), if_neg (by omega)]

/-- Witness for `alert_boundaries_amended` at `minLevel = 10`: quantities
0, 9, `floor(10 * 0.2) - 1 = 1` and 10 get, in order, critical
out-of-stock, Warning, critically-low critical, and no alert. -/
theorem alert_boundaries_amended_witness :
    alertOutcome ⟨1, "SKU-1", "Widget", 0, 10⟩ = .criticalOutOfStock ∧
    alertOutcome ⟨1, "SKU-1", "Widget", 10 - 1, 10⟩ = .warningLow ∧
    alertOutcome ⟨1, "SKU-1", "Widget", Int.floor ((10 : ℚ) * 0.2) - 1, 10⟩ = .criticalLow ∧
    alertOutcome ⟨1, "SKU-1", "Widget", 10, 10⟩ = .noAlert := by
  obtain ⟨h1, h2, _, h4, h5⟩ := alert_boundaries_amended 1 "SKU-1" "Widget" 10 (by norm_num)
  exact ⟨h1, h2 (by norm_num), h4 (by norm_num), h5⟩

/-- Counterexample to the distinct-message claim: product "Widget"
(minLevel 10) at quantity 1 is the critically-low critical case and at
quantity 0 the out-of-stock critical case, yet the evaluator emits exactly
the same broadcast payload — same type, title and message — in both. -/
theorem critical_message_not_distinct_cex :
    alertOutcome ⟨1, "SKU-1", "Widget", 1, 10⟩ = .criticalLow ∧
    alertOutcome ⟨1, "SKU-1", "Widget", 0, 10⟩ = .criticalOutOfStock ∧
    stockAlertService.check [⟨1, "SKU-1", "Widget", 1, 10⟩] 1 =
      stockAlertService.check [⟨1, "SKU-1", "Widget", 0, 10⟩] 1 ∧
    stockAlertService.check [⟨1, "SKU-1", "Widget", 1, 10⟩] 1 ≠ none :=
  ⟨by decide, by decide, by decide, by decide⟩

/-- C7 (amended): the critically-low critical case emits the *same*
broadcast as the out-of-stock case — both branches call
`broadcastCriticalStockAlert`, whose payload (type `stock_critical`,
title `CRITICAL: <name> Out of Stock!`, message `... is out of stock or
critically low!`) does not distinguish the two conditions. -/
theorem criticalLow_same_broadcast (p : Product) (h : alertOutcome p = .criticalLow) :
    stockAlertService.check [p] p.id =
      some (websocketService.broadcastCriticalStockAlert p.id p.name) ∧
    stockAlertService.check [{ p with quantity := 0 }] p.id =
      some (websocketService.broadcastCriticalStockAlert p.id p.name) := by
  have hfind : productRepository.findById [p] p.id = some p := by
    simp [productRepository.findById]
  have hfind0 : productRepository.findById [{ p with quantity := 0 }] p.id =
      some { p with quantity := 0 } := by
    simp [productRepository.findById]
  have h0 : alertOutcome { p with quantity := 0 } = .criticalOutOfStock := by
    unfold alertOutcome
    rw [if_pos rfl]
  constructor
  · simp [stockAlertService.check, stockAlertService.checkAndAlertStockLevel,
      stockAlertService.checkAndAlertStockLevelRun, hfind, h, Except.map]
  · simp [stockAlertService.check, stockAlertService.checkAndAlertStockLevel,
      stockAlertService.checkAndAlertStockLevelRun, hfind0, h0, Except.map]

/-- Witness for `criticalLow_same_broadcast` at the concrete critically-low
product `⟨1, "SKU-1", "Widget", 1, 10⟩`. -/
theorem criticalLow_same_broadcast_witness :
    stockAlertService.check [⟨1, "SKU-1", "Widget", 1, 10⟩] 1 =
      some (websocketService.broadcastCriticalStockAlert 1 "Widget") ∧
    stockAlertService.check [⟨1, "SKU-1", "Widget", 0, 10⟩] 1 =
      some (websocketService.broadcastCriticalStockAlert 1 "Widget") :=
  criticalLow_same_broadcast ⟨1, "SKU-1", "Widget", 1, 10⟩ (by decide)

/-- C8: the alert evaluation never raises to its caller — a failing
product lookup, a missing product, and a failing broadcast are each
swallowed by the `try/catch` and observed as "no alert"; the caller's own
operation is never aborted by alerting. -/
theorem alerting_never_propagates (lookup : Except String (Option Product))
    (bcast : WsNotification → Except String Unit) (productId : ℤ) :
    (∀ e, stockAlertService.checkAndAlertStockLevel (.error e) bcast productId = none) ∧
    (stockAlertService.checkAndAlertStockLevel (.ok none) bcast productId = none) ∧
    ((∀ n, ∃ msg, bcast n = .error msg) →
      stockAlertService.checkAndAlertStockLevel lookup bcast productId = none) := by
  refine ⟨fun e => rfl, rfl, fun hb => ?_⟩
  unfold stockAlertService.checkAndAlertStockLevel
    stockAlertService.checkAndAlertStockLevelRun
  match lookup with
  | .error e => rfl
  | .ok none => rfl
  | .ok (some p) =>
    dsimp only
    cases alertOutcome p with
    | criticalOutOfStock =>
      obtain ⟨msg, hmsg⟩ := hb (websocketService.broadcastCriticalStockAlert productId p.name)
      rw [hmsg]; rfl
    | criticalLow =>
      obtain ⟨msg, hmsg⟩ := hb (websocketService.broadcastCriticalStockAlert productId p.name)
      rw [hmsg]; rfl
    | warningLow =>
      obtain ⟨msg, hmsg⟩ := hb (websocketService.broadcastLowStockAlert productId p.name
        p.quantity p.minStockLevel)
      rw [hmsg]; rfl
    | noAlert => rfl

/-- Witness for `alerting_never_propagates`: a failing lookup, a missing
product, and a broadcast layer that always throws each produce "no
alert" on `sampleDB`'s product. -/
theorem alerting_never_propagates_witness :
    stockAlertService.checkAndAlertStockLevel (.error "connection lost")
      (fun _ => .ok ()) 1 = none ∧
    stockAlertService.checkAndAlertStockLevel (.ok none) (fun _ => .ok ()) 1 = none ∧
    stockAlertService.checkAndAlertStockLevel (.ok (some ⟨1, "SKU-1", "Widget", 1, 10⟩))
      (fun _ => .error "socket down") 1 = none :=
  ⟨(alerting_never_propagates (.error "connection lost") (fun _ => .ok ()) 1).1
      "connection lost",
   (alerting_never_propagates (.ok none) (fun _ => .ok ()) 1).2.1,
   (alerting_never_propagates (.ok (some ⟨1, "SKU-1", "Widget", 1, 10⟩))
      (fun _ => .error "socket down") 1).2.2 (fun _ => ⟨"socket down", rfl⟩)⟩

/-! ## Claims about the convenience wrapper and the notification store -/

/-- C9: `stockAlertService.recordMovementAndAlert` never touches the
product record — in particular its quantity — and appends the ledger row
directly, for *every* quantity (including non-positive ones) and every
productId (including ones no product has): none of the Movement Engine's
validations run, and its broadcasts plus swallowed errors leave no further
trace in the store. -/
theorem recordMovementAndAlert_frame (s : DBState) (productId : ℤ)
    (movementType : MovementType) (quantity : ℤ) (reason : Option String) :
    (stockAlertService.recordMovementAndAlert s productId movementType quantity
      reason).products = s.products ∧
    (stockAlertService.recordMovementAndAlert s productId movementType quantity
      reason).movements =
      s.movements ++ [⟨s.nextMovementId, productId, movementType, quantity, reason⟩] := by
  unfold stockAlertService.recordMovementAndAlert
  exact ⟨create_products_eq _ _, create_movements_eq _ _⟩

/-- The per-row relation of a read-monotonic store update: each row is
either unchanged or its `read` flag is set to `"true"`. -/
def ReadMonotoneStep (n n' : Notification) : Prop :=
  n' = n ∨ n' = { n with read := "true" }

/-- A mapped list is pointwise related to the original by `R` whenever `R`
relates every element to its image. -/
theorem forall₂_map_self {α : Type} (f : α → α) (R : α → α → Prop)
    (h : ∀ a, R a (f a)) : ∀ l : List α, List.Forall₂ R l (l.map f)
  | [] => .nil
  | a :: l => .cons (h a) (forall₂_map_self f R h l)

/-- C10: the `read` flag is monotonic.  Every notification the service
creates starts with `read = "false"` (existing rows' flags untouched);
`markAsRead` and `markAllAsRead` change rows only by setting `read` to
`"true"`; `delete` only removes rows.  No operation resets a flag to
`"false"`. -/
theorem notification_read_monotonic :
    (∀ ns nid u pid pname cq ml,
      (notificationService.createLowStockNotification ns nid u pid pname cq ml).map
        Notification.read = ns.map Notification.read ++ ["false"]) ∧
    (∀ ns nid u pid pname,
      (notificationService.createCriticalStockNotification ns nid u pid pname).map
        Notification.read = ns.map Notification.read ++ ["false"]) ∧
    (∀ ns nid u sid sname msg,
      (notificationService.createSupplierAlertNotification ns nid u sid sname msg).map
        Notification.read = ns.map Notification.read ++ ["false"]) ∧
    (∀ ns nid u t msg,
      (notificationService.createSystemNotification ns nid u t msg).map
        Notification.read = ns.map Notification.read ++ ["false"]) ∧
    (∀ ns i, List.Forall₂ ReadMonotoneStep ns (notificationRepository.markAsRead ns i)) ∧
    (∀ ns u, List.Forall₂ ReadMonotoneStep ns (notificationRepository.markAllAsRead ns u)) ∧
    (∀ ns i, (notificationRepository.delete ns i).Sublist ns) := by
  refine ⟨?_, ?_, ?_, ?_, ?_, ?_, ?_⟩
  · intro ns nid u pid pname cq ml
    simp [notificationService.createLowStockNotification, notificationRepository.create]
  · intro ns nid u pid pname
    simp [notificationService.createCriticalStockNotification, notificationRepository.create]
  · intro ns nid u sid sname msg
    simp [notificationService.createSupplierAlertNotification, notificationRepository.create]
  · intro ns nid u t msg
    simp [notificationService.createSystemNotification, notificationRepository.create]
  · intro ns i
    apply forall₂_map_self
    intro n
    unfold ReadMonotoneStep
    split
    · exact Or.inr rfl
    · exact Or.inl rfl
  · intro ns u
    apply forall₂_map_self
    intro n
    unfold ReadMonotoneStep
    split
    · exact Or.inr rfl
    · exact Or.inl rfl
  · intro ns i
    exact List.filter_sublist ns
